import Mathlib

/-!
Shallow embedding of the SearchResults component
(src/src/lib/components/SearchResults/index.js), an Algolia search box.

The component state consists of the hit list (hits_), the visibility flag
(showHits), the keyboard cursor (cursor, a JS number holding -1 or an index),
and the query string. JS numbers on the paths exercised here are integers,
modelled by Int; the JS remainder operator has the sign of the dividend
(truncated remainder, Int.tmod) and produces NaN when the divisor is 0, which
is modelled by an Option result (none = NaN-poisoned state).

The DOM side effects (scrollIntoView, attribute writes, location assignment)
are modelled by data: navigate returns the possible destination URL, updated
is modelled by the ariaActiveDescendant function, and render returns a View
value describing the produced markup.
-/

/-- One search result (Algolia hit). The highlightTitle field models
hit._highlightResult.title.value; none covers a missing title object or a
missing value, matching the falsy guard in itemsTemplate. -/
structure Hit where
  url : String
  highlightTitle : Option String
  deriving DecidableEq

/-- The reactive state of the SearchResults element: hits_, showHits, cursor
and query, as declared in its properties block. -/
structure SearchState where
  hits_ : List Hit
  showHits : Bool
  cursor : Int
  query : String
  deriving DecidableEq

/-- The JS remainder operator on integers: truncated remainder (sign of the
dividend); division by zero yields NaN, modelled as none. -/
def jsRem (a b : Int) : Option Int :=
  if b = 0 then none else some (Int.tmod a b)

/-- JS array indexing hits_[c] with an integer index: undefined (none) when
the index is negative or past the end. -/
def hitAt (hits : List Hit) (c : Int) : Option Hit :=
  if 0 ≤ c then hits[c.toNat]? else none

/-- The hits setter: stores the new array in hits_ and resets cursor to -1. -/
def setHits (s : SearchState) (hits : List Hit) : SearchState :=
  { s with hits_ := hits, cursor := -1 }

/-- firstHit(): cursor becomes 0. The subsequent scrollHitIntoView call is a
deferred DOM side effect with no state change and is not modelled. -/
def firstHit (s : SearchState) : SearchState :=
  { s with cursor := 0 }

/-- lastHit(): cursor becomes hits_.length - 1. -/
def lastHit (s : SearchState) : SearchState :=
  { s with cursor := (s.hits_.length : Int) - 1 }

/-- nextHit(): cursor becomes (cursor + 1) % hits_.length; none when the list
is empty (JS produces NaN there). -/
def nextHit (s : SearchState) : Option SearchState :=
  (jsRem (s.cursor + 1) s.hits_.length).map (fun c => { s with cursor := c })

/-- prevHit(): from -1 the cursor becomes hits_.length - 1, otherwise
(cursor - 1 + hits_.length) % hits_.length; none when JS would produce NaN. -/
def prevHit (s : SearchState) : Option SearchState :=
  if s.cursor = -1 then some { s with cursor := (s.hits_.length : Int) - 1 }
  else (jsRem (s.cursor - 1 + s.hits_.length) s.hits_.length).map
    (fun c => { s with cursor := c })

/-- navigate(key): dispatches to the movement operations, or on Enter reads
hits_[cursor] and, when it exists, navigates to its url. The result pairs the
new state with the destination URL of any browser navigation performed. -/
def navigate (key : String) (s : SearchState) : Option (SearchState × Option String) :=
  if key = "Home" then some (firstHit s, none)
  else if key = "End" then some (lastHit s, none)
  else if key = "Up" ∨ key = "ArrowUp" then (prevHit s).map (fun s2 => (s2, none))
  else if key = "Down" ∨ key = "ArrowDown" then (nextHit s).map (fun s2 => (s2, none))
  else if key = "Enter" then some (s, (hitAt s.hits_ s.cursor).map Hit.url)
  else some (s, none)

/-- Iterated nextHit, propagating NaN poisoning through bind. -/
def nextHitN : Nat → SearchState → Option SearchState
  | 0, s => some s
  | n + 1, s => (nextHit s).bind (nextHitN n)

/-- The backtick character, written by code point to keep it out of literals. -/
def backtick : Char := Char.ofNat 96

/-- The apostrophe character, written by code point. -/
def apos : Char := Char.ofNat 39

/-- Modelled from the spec: one character of the missing helper escapeHtml
(lib/utils/escape-html is referenced by the component but absent from src/).
Per the spec, all HTML entities are escaped; the usual five metacharacters
are mapped to their entities. -/
def escapeChar (c : Char) : List Char :=
  if c = '&' then "&amp;".toList
  else if c = '<' then "&lt;".toList
  else if c = '>' then "&gt;".toList
  else if c = '"' then "&quot;".toList
  else if c = apos then "&#39;".toList
  else [c]

/-- Modelled from the spec: the missing helper escapeHtml, escaping every
HTML metacharacter of the string. -/
def escapeHtml (s : List Char) : List Char :=
  s.foldr (fun c acc => escapeChar c ++ acc) []

/-- Replace every occurrence of pat (nonempty) by repl, scanning left to
right; fuel-based structural recursion, fuel = input length suffices. -/
def replaceAux (pat repl : List Char) : Nat → List Char → List Char
  | _, [] => []
  | 0, xs => xs
  | fuel + 1, x :: xs =>
    if pat.isPrefixOf (x :: xs) ∧ pat ≠ [] then
      repl ++ replaceAux pat repl fuel ((x :: xs).drop pat.length)
    else
      x :: replaceAux pat repl fuel xs

/-- Replace every occurrence of pat by repl in xs. -/
def replaceAll (pat repl xs : List Char) : List Char :=
  replaceAux pat repl xs.length xs

/-- Modelled from the spec: the missing helper allowHtml
(lib/utils/escape-html is absent from src/). Per the spec's design note, the
escaped forms of the allowed tag (opening and closing) are pattern-replaced
back to their literal forms. -/
def allowHtml (s : List Char) (tag : String) : List Char :=
  let opened := replaceAll ("&lt;".toList ++ tag.toList ++ "&gt;".toList)
    ('<' :: tag.toList ++ ['>']) s
  replaceAll ("&lt;/".toList ++ tag.toList ++ "&gt;".toList)
    ('<' :: '/' :: tag.toList ++ ['>']) opened

/-- The title pipeline of itemsTemplate: escape all HTML, re-allow the strong
tag, then strip backticks (title.replace of every backtick by nothing). -/
def transformTitle (title : String) : List Char :=
  (allowHtml (escapeHtml title.toList) "strong").filter (fun c => c != backtick)

/-- The deterministic link id of itemsTemplate: the fixed string followed by
the index as a JS number prints it. -/
def linkId (idx : Nat) : String :=
  "web-search-popout__link--" ++ toString (idx : Int)

/-- The updated() hook: the value of aria-activedescendant after a cursor
change (none = the attribute is removed). -/
def ariaActiveDescendant (cursor : Int) : Option String :=
  if cursor = -1 then none
  else some ("web-search-popout__link--" ++ toString cursor)

/-- One rendered anchor of itemsTemplate: its id, active class flag,
aria-selected value, href and processed title markup. -/
structure RenderedLink where
  id : String
  active : Bool
  ariaSelected : Bool
  href : String
  titleHtml : List Char
  deriving DecidableEq

/-- One step of itemsTemplate's map: a hit with a falsy highlight title
(missing, or the empty string) renders nothing (none); otherwise an anchor
is produced. -/
def renderItem (cursor : Int) (idx : Nat) (hit : Hit) : Option RenderedLink :=
  match hit.highlightTitle with
  | none => none
  | some t =>
    if t = "" then none
    else some
      { id := linkId idx
        active := decide ((idx : Int) = cursor)
        ariaSelected := decide ((idx : Int) = cursor)
        href := hit.url
        titleHtml := transformTitle t }

/-- itemsTemplate's map over hits_ carrying the running index. -/
def itemsTemplateFrom (cursor : Int) : Nat → List Hit → List (Option RenderedLink)
  | _, [] => []
  | idx, h :: hs => renderItem cursor idx h :: itemsTemplateFrom cursor (idx + 1) hs

/-- The itemsTemplate getter: hits_.map with its index, under the current
cursor. -/
def itemsTemplate (s : SearchState) : List (Option RenderedLink) :=
  itemsTemplateFrom s.cursor 0 s.hits_

/-- Modelled from the platform: String.prototype.trim, dropping whitespace
from both ends. -/
def jsTrim (s : String) : String :=
  String.mk (((s.toList.dropWhile Char.isWhitespace).reverse.dropWhile
    Char.isWhitespace).reverse)

/-- Hexadecimal digit (uppercase) of a value below 16. -/
def hexDigit (n : Nat) : Char :=
  if n < 10 then Char.ofNat (48 + n) else Char.ofNat (55 + n)

/-- UTF-8 bytes of a character, from its code point. -/
def utf8Bytes (c : Char) : List Nat :=
  let n := c.toNat
  if n < 128 then [n]
  else if n < 2048 then [192 + n / 64, 128 + n % 64]
  else if n < 65536 then [224 + n / 4096, 128 + (n / 64) % 64, 128 + n % 64]
  else [240 + n / 262144, 128 + (n / 4096) % 64, 128 + (n / 64) % 64, 128 + n % 64]

/-- Characters left unescaped by encodeURIComponent per ECMA-262. -/
def unreservedChar (c : Char) : Bool :=
  c.isAlpha || c.isDigit || "-_.!~*()".toList.contains c || c = apos

/-- Modelled from the platform: window.encodeURIComponent per ECMA-262,
percent-encoding every UTF-8 byte of each character outside the unreserved
set, with uppercase hexadecimal digits. -/
def encodeURIComponent (s : String) : String :=
  String.mk (s.toList.foldr (fun c acc =>
    (if unreservedChar c then [c]
     else (utf8Bytes c).foldr
       (fun b acc2 => '%' :: hexDigit (b / 16) :: hexDigit (b % 16) :: acc2) [])
    ++ acc) [])

/-- The markup produced by render(): the aria-hidden placeholder when
showHits is false, the empty template, the no-suggestions fallback carrying
the Google search URL and whether its anchor opens a new browsing context
(target="_blank"), or the results listbox. -/
inductive View where
  | hiddenPlaceholder : View
  | emptyOutput : View
  | fallback (searchUrl : String) (newContext : Bool) : View
  | results (items : List (Option RenderedLink)) : View
  deriving DecidableEq

/-- The render() method as a function of the component state. -/
def render (s : SearchState) : View :=
  if s.showHits = false then View.hiddenPlaceholder
  else if s.hits_.length = 0 then
    if s.query = "" then View.emptyOutput
    else View.fallback
      ("https://google.com/search?q=" ++ encodeURIComponent ("web.dev " ++ jsTrim s.query))
      true
  else View.results (itemsTemplate s)

/-- Contiguous-occurrence test: pat occurs as a run inside the list. -/
def containsSub (pat : List Char) : List Char → Bool
  | [] => pat.isEmpty
  | x :: xs => pat.isPrefixOf (x :: xs) || containsSub pat xs

/-- A concrete one-hit state with no selection, used as a test input. -/
def exStateNone : SearchState := ⟨[⟨"u", some "t"⟩], true, -1, ""⟩

/-- A concrete one-hit state with the hit selected, used as a test input. -/
def exStateSel : SearchState := ⟨[⟨"u", some "t"⟩], true, 0, "q"⟩

/-- A concrete two-hit state with the second hit selected. -/
def exStateTwo : SearchState := ⟨[⟨"u0", some "t0"⟩, ⟨"u1", some "t1"⟩], true, 1, "q"⟩

/-- A concrete empty-hits state with a stale positive cursor. -/
def exStateEmpty : SearchState := ⟨[], true, 5, "cats"⟩

/-- A concrete visible empty-hits state with query "cats". -/
def exStateCats : SearchState := ⟨[], true, -1, "cats"⟩

/-- The sample highlighted title of the spec's escaping property. -/
def sampleTitle : String := "foo <strong>bar</strong> <script>baz</script>"

theorem length_pos_int {hits : List Hit} (h : hits ≠ []) : 0 < (hits.length : Int) :=
  Int.natCast_pos.mpr (List.length_pos.mpr h)

theorem nextHit_eq (s : SearchState) (hne : s.hits_ ≠ []) (hc : -1 ≤ s.cursor) :
    nextHit s = some { s with cursor := (s.cursor + 1) % (s.hits_.length : Int) } := by
  have hn : (0 : Int) < s.hits_.length := length_pos_int hne
  have h0 : 0 ≤ s.cursor + 1 := by omega
  simp [nextHit, jsRem, Int.ne_of_gt hn, Int.tmod_eq_emod h0 (le_of_lt hn)]

theorem prevHit_eq (s : SearchState) (hne : s.hits_ ≠ []) (hc : 0 ≤ s.cursor) :
    prevHit s
      = some { s with cursor := (s.cursor - 1 + (s.hits_.length : Int)) % (s.hits_.length : Int) } := by
  have hn : (0 : Int) < s.hits_.length := length_pos_int hne
  have hcn : s.cursor ≠ -1 := by omega
  have h0 : 0 ≤ s.cursor - 1 + (s.hits_.length : Int) := by omega
  simp [prevHit, hcn, jsRem, Int.ne_of_gt hn, Int.tmod_eq_emod h0 (le_of_lt hn)]

theorem nextHitN_loop (k : Nat) : ∀ (s : SearchState), s.hits_ ≠ [] →
    0 ≤ s.cursor → s.cursor < (s.hits_.length : Int) →
    nextHitN k s = some { s with cursor := (s.cursor + k) % (s.hits_.length : Int) } := by
  induction k with
  | zero =>
    intro s hne h0 h1
    simp [nextHitN, Int.emod_eq_of_lt h0 h1]
  | succ k ih =>
    intro s hne h0 h1
    have hn : (0 : Int) < s.hits_.length := length_pos_int hne
    have hstep := nextHit_eq s hne (by omega)
    have hIH := ih { s with cursor := (s.cursor + 1) % (s.hits_.length : Int) }
      hne (Int.emod_nonneg _ (by omega)) (Int.emod_lt_of_pos _ hn)
    simp only [nextHitN, hstep, Option.some_bind]
    rw [hIH]
    have harith : ((s.cursor + 1) % (s.hits_.length : Int) + (k : Int)) % (s.hits_.length : Int)
        = (s.cursor + ((k : Int) + 1)) % (s.hits_.length : Int) := by
      rw [Int.emod_add_emod]
      congr 1
      ring
    simp only [harith]
    push_cast
    rfl

/-- C1: on a non-empty ResultSet with -1 ≤ cursor < length, each of the four
navigation operations (firstHit, lastHit, nextHit, prevHit) yields a state
whose cursor again satisfies -1 ≤ cursor < length. -/
theorem C1_nav_preserves_cursor_range (s : SearchState) (hne : s.hits_ ≠ [])
    (h1 : -1 ≤ s.cursor) (h2 : s.cursor < (s.hits_.length : Int)) :
    (-1 ≤ (firstHit s).cursor ∧ (firstHit s).cursor < ((firstHit s).hits_.length : Int)) ∧
    (-1 ≤ (lastHit s).cursor ∧ (lastHit s).cursor < ((lastHit s).hits_.length : Int)) ∧
    (∃ s2, nextHit s = some s2 ∧ -1 ≤ s2.cursor ∧ s2.cursor < (s2.hits_.length : Int)) ∧
    (∃ s2, prevHit s = some s2 ∧ -1 ≤ s2.cursor ∧ s2.cursor < (s2.hits_.length : Int)) := by
  have hn : (0 : Int) < s.hits_.length := length_pos_int hne
  refine ⟨⟨show (-1 : Int) ≤ 0 by norm_num, show (0 : Int) < (s.hits_.length : Int) from hn⟩,
    ⟨show (-1 : Int) ≤ (s.hits_.length : Int) - 1 by omega,
     show (s.hits_.length : Int) - 1 < (s.hits_.length : Int) by omega⟩, ?_, ?_⟩
  · exact ⟨_, nextHit_eq s hne h1,
      le_trans (by norm_num) (Int.emod_nonneg _ (by omega)),
      Int.emod_lt_of_pos _ hn⟩
  · by_cases hc : s.cursor = -1
    · exact ⟨{ s with cursor := (s.hits_.length : Int) - 1 },
        by rw [prevHit, if_pos hc],
        show (-1 : Int) ≤ (s.hits_.length : Int) - 1 by omega,
        show (s.hits_.length : Int) - 1 < (s.hits_.length : Int) by omega⟩
    · have h0 : 0 ≤ s.cursor := by omega
      exact ⟨_, prevHit_eq s hne h0,
        le_trans (by norm_num) (Int.emod_nonneg _ (by omega)),
        Int.emod_lt_of_pos _ hn⟩

theorem C1_witness :
    (exStateSel.hits_ ≠ [] ∧ -1 ≤ exStateSel.cursor ∧
      exStateSel.cursor < (exStateSel.hits_.length : Int)) ∧
    ((-1 ≤ (firstHit exStateSel).cursor ∧
        (firstHit exStateSel).cursor < ((firstHit exStateSel).hits_.length : Int)) ∧
      (-1 ≤ (lastHit exStateSel).cursor ∧
        (lastHit exStateSel).cursor < ((lastHit exStateSel).hits_.length : Int)) ∧
      (∃ s2, nextHit exStateSel = some s2 ∧ -1 ≤ s2.cursor ∧
        s2.cursor < (s2.hits_.length : Int)) ∧
      (∃ s2, prevHit exStateSel = some s2 ∧ -1 ≤ s2.cursor ∧
        s2.cursor < (s2.hits_.length : Int))) :=
  ⟨⟨by decide, by decide, by decide⟩,
    C1_nav_preserves_cursor_range exStateSel (by decide) (by decide) (by decide)⟩

/-- C2: assigning any array through the hits setter stores it and resets the
cursor to -1, whatever the prior cursor value. -/
theorem C2_setHits_resets_cursor (s : SearchState) (hits : List Hit) :
    (setHits s hits).cursor = -1 ∧ (setHits s hits).hits_ = hits :=
  ⟨rfl, rfl⟩

/-- C3 fails as stated: on a one-element ResultSet with cursor -1 (a value
reachable in the component, e.g. right after the hits setter), applying
nextHit length-many times (once) yields cursor 0, not the original -1. -/
theorem C3_counterexample :
    ¬ nextHitN exStateNone.hits_.length exStateNone = some exStateNone := by
  decide

/-- C3 (amended): on a non-empty ResultSet of length n, applying nextHit n
times returns the cursor to its original value whenever the starting cursor
is an actual index (0 ≤ cursor < n); from cursor = -1 the n applications
land on n - 1 instead. -/
theorem C3_next_cycles (s : SearchState) (hne : s.hits_ ≠ []) :
    (0 ≤ s.cursor → s.cursor < (s.hits_.length : Int) →
      nextHitN s.hits_.length s = some s) ∧
    (s.cursor = -1 →
      nextHitN s.hits_.length s = some { s with cursor := (s.hits_.length : Int) - 1 }) := by
  have hn : (0 : Int) < s.hits_.length := length_pos_int hne
  constructor
  · intro h0 h1
    rw [nextHitN_loop s.hits_.length s hne h0 h1]
    have harith : (s.cursor + (s.hits_.length : Int)) % (s.hits_.length : Int) = s.cursor := by
      rw [Int.add_emod_self]
      exact Int.emod_eq_of_lt h0 h1
    rw [harith]
  · intro hc
    have hlpos : 0 < s.hits_.length := List.length_pos.mpr hne
    have hstep := nextHit_eq s hne (by omega)
    rw [hc] at hstep
    have h01 : ((-1 : Int) + 1) % (s.hits_.length : Int) = 0 := by norm_num
    rw [h01] at hstep
    obtain ⟨m, hm⟩ : ∃ m, s.hits_.length = m + 1 := ⟨s.hits_.length - 1, by omega⟩
    have hIH := nextHitN_loop m { s with cursor := (0 : Int) } hne (le_refl 0) hn
    rw [hm] at hIH ⊢
    rw [nextHitN, hstep, Option.some_bind, hIH]
    have harith : ((0 : Int) + (m : Int)) % (((m + 1 : Nat) : Int)) = ((m + 1 : Nat) : Int) - 1 := by
      push_cast
      rw [Int.zero_add, Int.emod_eq_of_lt (by omega) (by omega)]
      ring
    simp only [harith]

theorem C3_witness :
    exStateTwo.hits_ ≠ [] ∧
    (0 ≤ exStateTwo.cursor ∧ exStateTwo.cursor < (exStateTwo.hits_.length : Int)) ∧
    nextHitN exStateTwo.hits_.length exStateTwo = some exStateTwo :=
  ⟨by decide, ⟨by decide, by decide⟩,
    (C3_next_cycles exStateTwo (by decide)).1 (by decide) (by decide)⟩

/-- C4: on a non-empty ResultSet, prevHit from cursor -1 lands on the last
index length - 1, and prevHit from cursor 0 wraps to the last index. -/
theorem C4_prev_wraps (s : SearchState) (hne : s.hits_ ≠ []) :
    (s.cursor = -1 →
      prevHit s = some { s with cursor := (s.hits_.length : Int) - 1 }) ∧
    (s.cursor = 0 →
      prevHit s = some { s with cursor := (s.hits_.length : Int) - 1 }) := by
  have hn : (0 : Int) < s.hits_.length := length_pos_int hne
  constructor
  · intro hc
    rw [prevHit, if_pos hc]
  · intro hc
    rw [prevHit_eq s hne (by omega), hc]
    have harith : ((0 : Int) - 1 + (s.hits_.length : Int)) % (s.hits_.length : Int)
        = (s.hits_.length : Int) - 1 := by
      rw [Int.emod_eq_of_lt (by omega) (by omega)]
      ring
    rw [harith]

theorem C4_witness :
    (exStateNone.hits_ ≠ [] ∧ exStateNone.cursor = -1 ∧
      prevHit exStateNone = some { exStateNone with cursor := (exStateNone.hits_.length : Int) - 1 }) ∧
    (exStateSel.hits_ ≠ [] ∧ exStateSel.cursor = 0 ∧
      prevHit exStateSel = some { exStateSel with cursor := (exStateSel.hits_.length : Int) - 1 }) :=
  ⟨⟨by decide, by decide, (C4_prev_wraps exStateNone (by decide)).1 (by decide)⟩,
    ⟨by decide, by decide, (C4_prev_wraps exStateSel (by decide)).2 (by decide)⟩⟩

/-- C5: navigate "Enter" with cursor -1 or cursor at or past the end reads no
hit, performs no browser navigation (destination none) and returns the state
unchanged. -/
theorem C5_enter_invalid_cursor_noop (s : SearchState)
    (h : s.cursor = -1 ∨ (s.hits_.length : Int) ≤ s.cursor) :
    navigate "Enter" s = some (s, none) := by
  have hmiss : hitAt s.hits_ s.cursor = none := by
    rcases h with hc | hc
    · rw [hitAt, if_neg]
      omega
    · have h0 : 0 ≤ s.cursor := le_trans (Int.natCast_nonneg _) hc
      rw [hitAt, if_pos h0, List.getElem?_eq_none]
      omega
    
  simp [navigate, hmiss]

theorem C5_witness :
    (exStateNone.cursor = -1 ∨ (exStateNone.hits_.length : Int) ≤ exStateNone.cursor) ∧
    navigate "Enter" exStateNone = some (exStateNone, none) :=
  ⟨Or.inl (by decide), C5_enter_invalid_cursor_noop exStateNone (Or.inl (by decide))⟩

/-- C10: on an empty ResultSet, navigate "End" (lastHit) sets the cursor to
-1, coinciding with the no-selection value, while navigate "Home" (firstHit)
sets it to 0, an index past the end of the empty list. -/
theorem C10_empty_home_end (s : SearchState) (h : s.hits_ = []) :
    navigate "End" s = some ({ s with cursor := -1 }, none) ∧
    navigate "Home" s = some ({ s with cursor := 0 }, none) := by
  constructor
  · simp [navigate, lastHit, h]
  · simp [navigate, firstHit]

theorem C10_witness :
    exStateEmpty.hits_ = [] ∧
    navigate "End" exStateEmpty = some ({ exStateEmpty with cursor := -1 }, none) ∧
    navigate "Home" exStateEmpty = some ({ exStateEmpty with cursor := 0 }, none) :=
  ⟨by decide, (C10_empty_home_end exStateEmpty rfl).1, (C10_empty_home_end exStateEmpty rfl).2⟩

/-- C6: on the sample highlighted title, the transformed title keeps the
strong tag literal, contains the script tag only in escaped form, and for
every input title no backtick remains in the transformed output. -/
theorem C6_title_escaping :
    containsSub "<strong>".toList (transformTitle sampleTitle) = true ∧
    containsSub "<script>".toList (transformTitle sampleTitle) = false ∧
    containsSub "&lt;script&gt;".toList (transformTitle sampleTitle) = true ∧
    ∀ t : String, backtick ∉ transformTitle t := by
  refine ⟨by decide, by decide, by decide, ?_⟩
  intro t hmem
  rw [transformTitle, List.mem_filter] at hmem
  simp at hmem

theorem renderItem_id (cursor : Int) (idx : Nat) (hit : Hit) (l : RenderedLink)
    (h : renderItem cursor idx hit = some l) : l.id = linkId idx := by
  unfold renderItem at h
  split at h
  · exact absurd h (by simp)
  · split at h
    · exact absurd h (by simp)
    · cases h
      rfl

theorem itemsTemplateFrom_id (cursor : Int) :
    ∀ (hits : List Hit) (k i : Nat) (l : RenderedLink),
      (itemsTemplateFrom cursor k hits)[i]? = some (some l) → l.id = linkId (k + i) := by
  intro hits
  induction hits with
  | nil =>
    intro k i l h
    simp [itemsTemplateFrom] at h
  | cons hd tl ih =>
    intro k i l h
    cases i with
    | zero =>
      rw [itemsTemplateFrom, List.getElem?_cons_zero] at h
      exact renderItem_id cursor k hd l (Option.some.inj h)
    | succ i =>
      rw [itemsTemplateFrom, List.getElem?_cons_succ] at h
      have hid := ih (k + 1) i l h
      rw [hid]
      congr 1
      omega

theorem itemsTemplateFrom_length (cursor : Int) :
    ∀ (hits : List Hit) (k : Nat),
      (itemsTemplateFrom cursor k hits).length = hits.length := by
  intro hits
  induction hits with
  | nil => intro k; rfl
  | cons hd tl ih =>
    intro k
    simp [itemsTemplateFrom, ih]

/-- C7: after a cursor change, the aria-activedescendant attribute is removed
exactly when the cursor is -1, and otherwise set to the fixed string followed
by the cursor value, which equals the deterministic id linkId that
itemsTemplate gives the link rendered at that position. -/
theorem C7_aria_matches_link_id (s : SearchState) (i : Nat) (l : RenderedLink) :
    (s.cursor = -1 → ariaActiveDescendant s.cursor = none) ∧
    (s.cursor = (i : Int) → ariaActiveDescendant s.cursor = some (linkId i)) ∧
    ((itemsTemplate s)[i]? = some (some l) → l.id = linkId i) := by
  refine ⟨fun hc => by rw [hc]; rfl, fun hc => ?_, fun h => ?_⟩
  · rw [hc, ariaActiveDescendant, if_neg (by omega)]
    rfl
  · rw [itemsTemplate] at h
    have hid := itemsTemplateFrom_id s.cursor s.hits_ 0 i l h
    rw [hid, Nat.zero_add]

theorem C7_witness :
    ariaActiveDescendant exStateNone.cursor = none ∧
    ariaActiveDescendant exStateTwo.cursor = some (linkId 1) ∧
    (itemsTemplate exStateTwo)[1]? =
      some (some ⟨linkId 1, true, true, "u1", transformTitle "t1"⟩) ∧
    (⟨linkId 1, true, true, "u1", transformTitle "t1"⟩ : RenderedLink).id = linkId 1 :=
  ⟨(C7_aria_matches_link_id exStateNone 0 ⟨"", false, false, "", []⟩).1 (by decide),
    (C7_aria_matches_link_id exStateTwo 1 ⟨"", false, false, "", []⟩).2.1 (by decide),
    by decide,
    (C7_aria_matches_link_id exStateTwo 1
      ⟨linkId 1, true, true, "u1", transformTitle "t1"⟩).2.2 (by decide)⟩

/-- C8: with an empty ResultSet, the dropdown visible and query "cats",
render produces the fallback view, opening a new browsing context, whose
link target appends the URL-encoding of "web.dev cats" (the site-bias
string prepended to the query) to the Google search URL; that encoding is
"web.dev%20cats". -/
theorem C8_fallback_link (s : SearchState)
    (h1 : s.showHits = true) (h2 : s.hits_ = []) (h3 : s.query = "cats") :
    render s = View.fallback
      ("https://google.com/search?q=" ++ encodeURIComponent "web.dev cats") true ∧
    encodeURIComponent "web.dev cats" = "web.dev%20cats" := by
  constructor
  · rw [render, h1, h2, h3]
    rw [if_neg (by decide), if_pos (by decide), if_neg (by decide)]
    have htrim : ("web.dev " ++ jsTrim "cats") = "web.dev cats" := by decide
    rw [htrim]
  · decide

theorem C8_witness :
    (exStateCats.showHits = true ∧ exStateCats.hits_ = [] ∧ exStateCats.query = "cats") ∧
    render exStateCats = View.fallback
      ("https://google.com/search?q=" ++ encodeURIComponent "web.dev cats") true ∧
    encodeURIComponent "web.dev cats" = "web.dev%20cats" :=
  ⟨⟨rfl, rfl, rfl⟩, (C8_fallback_link exStateCats rfl rfl rfl).1,
    (C8_fallback_link exStateCats rfl rfl rfl).2⟩

/-- C9: itemsTemplate never fails on a malformed hit: a hit produces no
anchor exactly when its highlight title is missing or empty, a hit with a
non-empty highlight title produces an anchor carrying its url, and one
output slot exists per hit. -/
theorem C9_malformed_hits_skipped (cursor : Int) (idx : Nat) (hit : Hit) :
    ((hit.highlightTitle = none ∨ hit.highlightTitle = some "")
      ↔ renderItem cursor idx hit = none) ∧
    (∀ t, hit.highlightTitle = some t → t ≠ "" →
      ∃ l, renderItem cursor idx hit = some l ∧ l.href = hit.url) ∧
    (∀ hits, (itemsTemplateFrom cursor idx hits).length = hits.length) := by
  refine ⟨⟨?_, ?_⟩, ?_, fun hits => itemsTemplateFrom_length cursor hits idx⟩
  · rintro (h | h) <;> simp [renderItem, h]
  · intro h
    match hh : hit.highlightTitle with
    | none => exact Or.inl rfl
    | some t =>
      unfold renderItem at h
      rw [hh] at h
      simp only [] at h
      by_cases ht : t = ""
      · exact Or.inr (by rw [ht])
      · rw [if_neg ht] at h
        simp at h
  · intro t hh ht
    refine ⟨⟨linkId idx, decide ((idx : Int) = cursor), decide ((idx : Int) = cursor),
      hit.url, transformTitle t⟩, ?_, rfl⟩
    simp [renderItem, hh, ht]

theorem C9_witness :
    renderItem 0 0 (⟨"u", none⟩ : Hit) = none ∧
    (∃ l, renderItem 0 1 (⟨"u2", some "t"⟩ : Hit) = some l ∧ l.href = "u2") ∧
    (itemsTemplateFrom 0 0 [⟨"u", none⟩, ⟨"u2", some "t"⟩]).length = 2 :=
  ⟨(C9_malformed_hits_skipped 0 0 ⟨"u", none⟩).1.mp (Or.inl rfl),
    (C9_malformed_hits_skipped 0 1 ⟨"u2", some "t"⟩).2.1 "t" rfl (by decide),
    (C9_malformed_hits_skipped 0 0 ⟨"u", none⟩).2.2 [⟨"u", none⟩, ⟨"u2", some "t"⟩]⟩
